import Mathlib

/-!
# Verification of the macOS runner's browser-engine glue

Shallow embedding of `macos/Runner/cef_bridge.cpp` and
`macos/Runner/cef_manager.cpp`.

* The embedded browser engine is a pre-built library.  Every call the runner
  makes into it is recorded, in order, in a log (`List EngineCall`); what the
  library answers is a parameter (`Engine`).
* A `CefRefPtr<CefBrowser>` is modelled by the address it holds (`Nat`);
  `std::list::remove` compares such handles by address.
* C `int` arguments are `Int`; the code does no arithmetic on them.
* A function that may hit the thread assertion returns an `Outcome`: either it
  returned with a state, or the process aborted in a state.
-/

namespace Runner

/-! ## Values of the engine SDK -/

/-- Address held by a `CefRefPtr<CefBrowser>`. -/
abbrev CefBrowser := Nat

/-- Native window handle: the `void* view` after `reinterpret_cast<CefWindowHandle>`. -/
abbrev CefWindowHandle := Nat

/-- Rectangle built by the braced initialiser `{0, 0, width, height}`. -/
structure CefRect where
  x : Int
  y : Int
  width : Int
  height : Int
deriving DecidableEq, Repr

/-- Modelled from the spec: `CefWindowInfo` is declared in the engine SDK headers, which are
not part of the sources.  The spec describes the value as "the target as a child of the
caller-supplied native view handle at origin (0,0) with the given width/height", so the
model keeps the parent view and the bounds. -/
structure CefWindowInfo where
  parent_view : CefWindowHandle := 0
  bounds : CefRect := ⟨0, 0, 0, 0⟩
deriving DecidableEq, Repr

/-- Modelled from the spec: `CefWindowInfo::SetAsChild(parent, bounds)` from the SDK headers;
it makes the window a child of `parent` placed at `bounds`. -/
def CefWindowInfo.SetAsChild (self : CefWindowInfo) (parent : CefWindowHandle)
    (bounds : CefRect) : CefWindowInfo :=
  { self with parent_view := parent, bounds := bounds }

/-- Modelled from the spec: `CefSettings` is declared in the engine SDK headers.  The source
writes the field `no_sandbox`; every other field of the SDK structure is kept together in
`other`, whose type `S` is a parameter. -/
structure CefSettings (S : Type) where
  no_sandbox : Int
  other : S
deriving DecidableEq, Repr

/-- Application delegate `class SimpleApp : public CefApp`: it has no data member. -/
structure SimpleApp where
deriving DecidableEq, Repr

/-- The constructor `SimpleApp() {}`. -/
def SimpleApp.new : SimpleApp := {}

/-- Client `class SimpleClient : public CefClient, public CefLifeSpanHandler`: its only data
member is `std::list<CefRefPtr<CefBrowser>> browser_list_`. -/
structure SimpleClient where
  browser_list_ : List CefBrowser
deriving DecidableEq, Repr

/-- The constructor `SimpleClient() {}`: the list member is default-constructed, empty. -/
def SimpleClient.new : SimpleClient := { browser_list_ := [] }

/-- Modelled from the spec: the default-constructed values of the SDK types the source
declares without touching (`CefMainArgs main_args;`, `CefSettings settings;`,
`CefBrowserSettings browser_settings;`).  Their types `A`, `S`, `B` are parameters. -/
structure SdkDefaults (A S B : Type) where
  main_args : A
  settings : CefSettings S
  browser_settings : B

/-- One call made into the engine library, with the arguments it was given.  A pointer
argument that may be null is an `Option`. -/
inductive EngineCall (A S B : Type) where
  | CefInitialize (args : A) (settings : CefSettings S) (application : Option SimpleApp)
      (windows_sandbox_info : Option Nat)
  | CefDoMessageLoopWork
  | CefShutdown
  | CreateBrowser (windowInfo : CefWindowInfo) (client : Option SimpleClient) (url : String)
      (settings : B) (extra_info : Option Nat) (request_context : Option Nat)
deriving DecidableEq, Repr

/-- What the engine library answers: the `bool` returned by `CefInitialize` and by
`CefBrowserHost::CreateBrowser`, as a function of the calls made before and the
arguments. -/
structure Engine (A S B : Type) where
  CefInitialize : List (EngineCall A S B) → A → CefSettings S → Option SimpleApp →
    Option Nat → Bool
  CreateBrowser : List (EngineCall A S B) → CefWindowInfo → Option SimpleClient → String →
    B → Option Nat → Option Nat → Bool

/-- How a call ends: it returns to its caller in a state, or the process aborts in a state. -/
inductive Outcome (σ : Type) where
  | returned (state : σ)
  | aborted (state : σ)
deriving DecidableEq, Repr

/-- Modelled from the spec: the SDK macro `CEF_REQUIRE_UI_THREAD()` is defined in
`wrapper/cef_helpers.h`, not part of the sources; the spec says it "aborts the process if
violated".  `currently_on_ui` is whether the calling thread is the engine's UI thread;
`body` is the rest of the function. -/
def CEF_REQUIRE_UI_THREAD {σ : Type} (currently_on_ui : Bool) (state : σ)
    (body : σ → Outcome σ) : Outcome σ :=
  if currently_on_ui then body state else Outcome.aborted state

/-! ## `std::list` operations used by the client -/

/-- `std::list::push_back`. -/
def push_back (l : List CefBrowser) (value : CefBrowser) : List CefBrowser :=
  l ++ [value]

/-- `std::list::remove(value)`: erases every element that compares equal to `value`. -/
def remove (value : CefBrowser) : List CefBrowser → List CefBrowser
  | [] => []
  | x :: xs => if x = value then remove value xs else x :: remove value xs

/-! ## cef_bridge.cpp -/

/-- `SimpleClient::OnAfterCreated`.  The block guarded by `!browser_list_.empty()` holds a
comment only, so both branches leave the object as it is. -/
def SimpleClient.OnAfterCreated (currently_on_ui : Bool) (self : SimpleClient)
    (browser : CefBrowser) : Outcome SimpleClient :=
  CEF_REQUIRE_UI_THREAD currently_on_ui self fun self =>
    let self := if !self.browser_list_.isEmpty then self else self
    Outcome.returned { self with browser_list_ := push_back self.browser_list_ browser }

/-- `SimpleClient::OnBeforeClose`. -/
def SimpleClient.OnBeforeClose (currently_on_ui : Bool) (self : SimpleClient)
    (browser : CefBrowser) : Outcome SimpleClient :=
  CEF_REQUIRE_UI_THREAD currently_on_ui self fun self =>
    Outcome.returned { self with browser_list_ := remove browser self.browser_list_ }

/-- `create_webview(view, url, width, height)`.  The state is the log of engine calls.  The
`bool` that `CreateBrowser` returns is discarded. -/
def create_webview {A S B : Type} (sdk : SdkDefaults A S B) (engine : Engine A S B)
    (currently_on_ui : Bool) (log : List (EngineCall A S B)) (view : CefWindowHandle)
    (url : String) (width height : Int) : Outcome (List (EngineCall A S B)) :=
  CEF_REQUIRE_UI_THREAD currently_on_ui log fun log =>
    let window_info : CefWindowInfo := {}
    let browser_settings : B := sdk.browser_settings
    let window_info := window_info.SetAsChild view ⟨0, 0, width, height⟩
    let handler : SimpleClient := SimpleClient.new
    let _created : Bool :=
      engine.CreateBrowser log window_info (some handler) url browser_settings none none
    Outcome.returned
      (log ++ [EngineCall.CreateBrowser window_info (some handler) url browser_settings
        none none])

/-! ## cef_manager.cpp -/

/-- `CefManager_Initialize()`.  The branch on `!result` holds a comment only. -/
def CefManager_Initialize {A S B : Type} (sdk : SdkDefaults A S B) (engine : Engine A S B)
    (log : List (EngineCall A S B)) : Outcome (List (EngineCall A S B)) :=
  let main_args : A := sdk.main_args
  let settings : CefSettings S := sdk.settings
  let settings := { settings with no_sandbox := 1 }
  let app : SimpleApp := SimpleApp.new
  let result : Bool := engine.CefInitialize log main_args settings (some app) none
  let log := log ++ [EngineCall.CefInitialize main_args settings (some app) none]
  if !result then Outcome.returned log else Outcome.returned log

/-- `CefManager_DoMessageLoopWork()`. -/
def CefManager_DoMessageLoopWork {A S B : Type} (log : List (EngineCall A S B)) :
    Outcome (List (EngineCall A S B)) :=
  Outcome.returned (log ++ [EngineCall.CefDoMessageLoopWork])

/-- `CefManager_Shutdown()`. -/
def CefManager_Shutdown {A S B : Type} (log : List (EngineCall A S B)) :
    Outcome (List (EngineCall A S B)) :=
  Outcome.returned (log ++ [EngineCall.CefShutdown])

/-! ## Sequences of calls -/

/-- One call of the host into the Manager group. -/
inductive ManagerCall where
  | Initialize
  | DoMessageLoopWork
  | Shutdown
deriving DecidableEq, Repr

/-- Runs one Manager call. -/
def ManagerCall.run {A S B : Type} (sdk : SdkDefaults A S B) (engine : Engine A S B)
    (log : List (EngineCall A S B)) : ManagerCall → Outcome (List (EngineCall A S B))
  | ManagerCall.Initialize => CefManager_Initialize sdk engine log
  | ManagerCall.DoMessageLoopWork => CefManager_DoMessageLoopWork log
  | ManagerCall.Shutdown => CefManager_Shutdown log

/-- Runs a history of Manager calls in order; an abort ends the run. -/
def run_manager {A S B : Type} (sdk : SdkDefaults A S B) (engine : Engine A S B) :
    List (EngineCall A S B) → List ManagerCall → Outcome (List (EngineCall A S B))
  | log, [] => Outcome.returned log
  | log, c :: cs =>
    match c.run sdk engine log with
    | Outcome.returned log1 => run_manager sdk engine log1 cs
    | Outcome.aborted log1 => Outcome.aborted log1

/-- One life-span callback the engine delivers to a client. -/
inductive LifeSpanEvent where
  | AfterCreated (browser : CefBrowser)
  | BeforeClose (browser : CefBrowser)
deriving DecidableEq, Repr

/-- Delivers one callback. -/
def SimpleClient.deliver (currently_on_ui : Bool) (self : SimpleClient) :
    LifeSpanEvent → Outcome SimpleClient
  | LifeSpanEvent.AfterCreated b => self.OnAfterCreated currently_on_ui b
  | LifeSpanEvent.BeforeClose b => self.OnBeforeClose currently_on_ui b

/-- Delivers a sequence of callbacks in order; an abort ends the run. -/
def run_callbacks (currently_on_ui : Bool) : SimpleClient → List LifeSpanEvent →
    Outcome SimpleClient
  | c, [] => Outcome.returned c
  | c, e :: es =>
    match c.deliver currently_on_ui e with
    | Outcome.returned c1 => run_callbacks currently_on_ui c1 es
    | Outcome.aborted c1 => Outcome.aborted c1

/-- No browser is reported created while the client still tracks it: at every `AfterCreated b`
of the sequence, `b` is not in the tracked list the client has at that point. -/
def no_create_while_tracked : SimpleClient → List LifeSpanEvent → Bool
  | _, [] => true
  | c, e :: es =>
    (match e with
      | LifeSpanEvent.AfterCreated b => decide (b ∉ c.browser_list_)
      | LifeSpanEvent.BeforeClose _ => true) &&
    (match c.deliver true e with
      | Outcome.returned c1 => no_create_while_tracked c1 es
      | Outcome.aborted _ => false)

/-- Specification side of the tracking invariant, written from the claim's words: the
browsers that have been created and not closed since their creation, in creation order.  A
creation event contributes its browser when no later event closes that browser. -/
def created_not_closed : List LifeSpanEvent → List CefBrowser
  | [] => []
  | LifeSpanEvent.AfterCreated b :: es =>
    if LifeSpanEvent.BeforeClose b ∈ es then created_not_closed es
    else b :: created_not_closed es
  | LifeSpanEvent.BeforeClose _ :: es => created_not_closed es

/-! ## Lemmas on the embedding -/

theorem remove_eq_filter (value : CefBrowser) (l : List CefBrowser) :
    remove value l = l.filter (fun x => decide (x ≠ value)) := by
  induction l with
  | nil => rfl
  | cons x xs ih =>
    by_cases hx : x = value
    · simp [remove, hx, ih]
    · simp [remove, hx, ih]

theorem OnAfterCreated_on_ui (c : SimpleClient) (b : CefBrowser) :
    c.OnAfterCreated true b = Outcome.returned ⟨c.browser_list_ ++ [b]⟩ := by
  simp [SimpleClient.OnAfterCreated, CEF_REQUIRE_UI_THREAD, push_back]

theorem OnBeforeClose_on_ui (c : SimpleClient) (b : CefBrowser) :
    c.OnBeforeClose true b = Outcome.returned ⟨remove b c.browser_list_⟩ := by
  simp [SimpleClient.OnBeforeClose, CEF_REQUIRE_UI_THREAD]

theorem OnAfterCreated_off_ui (c : SimpleClient) (b : CefBrowser) :
    c.OnAfterCreated false b = Outcome.aborted c := by
  simp [SimpleClient.OnAfterCreated, CEF_REQUIRE_UI_THREAD]

theorem OnBeforeClose_off_ui (c : SimpleClient) (b : CefBrowser) :
    c.OnBeforeClose false b = Outcome.aborted c := by
  simp [SimpleClient.OnBeforeClose, CEF_REQUIRE_UI_THREAD]

theorem create_webview_on_ui {A S B : Type} (sdk : SdkDefaults A S B) (engine : Engine A S B)
    (log : List (EngineCall A S B)) (view : CefWindowHandle) (url : String)
    (width height : Int) :
    create_webview sdk engine true log view url width height =
      Outcome.returned (log ++ [EngineCall.CreateBrowser
        { parent_view := view, bounds := { x := 0, y := 0, width := width, height := height } }
        (some SimpleClient.new) url sdk.browser_settings none none]) := by
  simp [create_webview, CEF_REQUIRE_UI_THREAD, CefWindowInfo.SetAsChild]

theorem CefManager_Initialize_eq {A S B : Type} (sdk : SdkDefaults A S B)
    (engine : Engine A S B) (log : List (EngineCall A S B)) :
    CefManager_Initialize sdk engine log =
      Outcome.returned (log ++ [EngineCall.CefInitialize sdk.main_args
        { sdk.settings with no_sandbox := 1 } (some SimpleApp.new) none]) := by
  simp [CefManager_Initialize]

theorem run_manager_returns {A S B : Type} (sdk : SdkDefaults A S B) (engine : Engine A S B)
    (history : List ManagerCall) (log : List (EngineCall A S B)) :
    ∃ log1, run_manager sdk engine log history = Outcome.returned log1 := by
  induction history generalizing log with
  | nil => exact ⟨log, rfl⟩
  | cons c cs ih =>
    cases c with
    | Initialize =>
      simp only [run_manager, ManagerCall.run, CefManager_Initialize_eq]
      exact ih _
    | DoMessageLoopWork =>
      simp only [run_manager, ManagerCall.run, CefManager_DoMessageLoopWork]
      exact ih _
    | Shutdown =>
      simp only [run_manager, ManagerCall.run, CefManager_Shutdown]
      exact ih _

theorem run_callbacks_on_ui (evs : List LifeSpanEvent) (l : List CefBrowser) :
    run_callbacks true ⟨l⟩ evs =
      Outcome.returned ⟨l.filter (fun x => decide (LifeSpanEvent.BeforeClose x ∉ evs)) ++
        created_not_closed evs⟩ := by
  induction evs generalizing l with
  | nil => simp [run_callbacks, created_not_closed]
  | cons e es ih =>
    cases e with
    | AfterCreated b =>
      simp only [run_callbacks, SimpleClient.deliver, OnAfterCreated_on_ui, ih]
      by_cases hb : LifeSpanEvent.BeforeClose b ∈ es
      · simp [created_not_closed, hb, List.filter_append]
      · simp [created_not_closed, hb, List.filter_append]
    | BeforeClose b =>
      simp only [run_callbacks, SimpleClient.deliver, OnBeforeClose_on_ui, ih,
        remove_eq_filter, created_not_closed, List.filter_filter]
      congr 3
      apply List.filter_congr
      intro x _
      by_cases hx : x = b
      · simp [hx]
      · by_cases hm : LifeSpanEvent.BeforeClose x ∈ es
        · simp [hx, hm]
        · simp [hx, hm]

theorem run_callbacks_nodup (evs : List LifeSpanEvent) (l : List CefBrowser)
    (hl : l.Nodup) (h : no_create_while_tracked ⟨l⟩ evs = true) :
    ∃ l1, run_callbacks true ⟨l⟩ evs = Outcome.returned ⟨l1⟩ ∧ l1.Nodup := by
  induction evs generalizing l with
  | nil => exact ⟨l, rfl, hl⟩
  | cons e es ih =>
    cases e with
    | AfterCreated b =>
      simp only [no_create_while_tracked, SimpleClient.deliver, OnAfterCreated_on_ui,
        Bool.and_eq_true, decide_eq_true_eq] at h
      simp only [run_callbacks, SimpleClient.deliver, OnAfterCreated_on_ui]
      apply ih _ _ h.2
      exact List.Nodup.append hl (List.nodup_singleton b) (by simpa using h.1)
    | BeforeClose b =>
      simp only [no_create_while_tracked, SimpleClient.deliver, OnBeforeClose_on_ui,
        Bool.true_and] at h
      simp only [run_callbacks, SimpleClient.deliver, OnBeforeClose_on_ui]
      apply ih _ _ h
      rw [remove_eq_filter]
      exact hl.filter _

theorem no_create_while_tracked_take (evs : List LifeSpanEvent) (c : SimpleClient)
    (k : Nat) (h : no_create_while_tracked c evs = true) :
    no_create_while_tracked c (evs.take k) = true := by
  induction evs generalizing c k with
  | nil => simpa using h
  | cons e es ih =>
    cases k with
    | zero => simp [no_create_while_tracked]
    | succ k =>
      cases e with
      | AfterCreated b =>
        simp only [no_create_while_tracked, SimpleClient.deliver, OnAfterCreated_on_ui,
          Bool.and_eq_true, decide_eq_true_eq, List.take_succ_cons] at h ⊢
        exact ⟨h.1, ih _ _ h.2⟩
      | BeforeClose b =>
        simp only [no_create_while_tracked, SimpleClient.deliver, OnBeforeClose_on_ui,
          Bool.true_and, List.take_succ_cons] at h ⊢
        exact ih _ _ h

theorem run_callbacks_returned_on_ui (ui : Bool) (c c1 : SimpleClient)
    (evs : List LifeSpanEvent) (h : run_callbacks ui c evs = Outcome.returned c1) :
    run_callbacks true c evs = Outcome.returned c1 := by
  cases ui with
  | true => exact h
  | false =>
    cases evs with
    | nil => exact h
    | cons e es =>
      cases e with
      | AfterCreated b =>
        simp [run_callbacks, SimpleClient.deliver, OnAfterCreated_off_ui] at h
      | BeforeClose b =>
        simp [run_callbacks, SimpleClient.deliver, OnBeforeClose_off_ui] at h

/-! ## The claims -/

/-- C1: on a freshly constructed `SimpleClient` (the client `create_webview` hands to the
engine, whose tracked list is empty), `OnAfterCreated(b)` leaves the tracked list with
exactly one entry, `b`, and a following `OnBeforeClose(b)` leaves it empty.  The callbacks
return on the UI thread, and whenever they return the lists are these. -/
theorem C1_tracked_one_then_empty (b : CefBrowser) :
    (∀ (A S B : Type) (sdk : SdkDefaults A S B) (engine : Engine A S B)
        (log : List (EngineCall A S B)) (view : CefWindowHandle) (url : String)
        (width height : Int),
        ∃ w s, create_webview sdk engine true log view url width height =
          Outcome.returned (log ++
            [EngineCall.CreateBrowser w (some SimpleClient.new) url s none none])) ∧
    SimpleClient.new.browser_list_ = [] ∧
    SimpleClient.new.OnAfterCreated true b = Outcome.returned ⟨[b]⟩ ∧
    (SimpleClient.mk [b]).OnBeforeClose true b = Outcome.returned ⟨[]⟩ ∧
    (∀ (ui : Bool) (c1 : SimpleClient),
        SimpleClient.new.OnAfterCreated ui b = Outcome.returned c1 →
        c1.browser_list_ = [b] ∧ c1.browser_list_.length = 1 ∧
        ∀ (ui2 : Bool) (c2 : SimpleClient),
          c1.OnBeforeClose ui2 b = Outcome.returned c2 → c2.browser_list_ = []) := by
  have hremove : remove b [b] = [] := by simp [remove]
  refine ⟨?_, rfl, ?_, ?_, ?_⟩
  · intro A S B sdk engine log view url width height
    exact ⟨_, _, create_webview_on_ui sdk engine log view url width height⟩
  · simp [OnAfterCreated_on_ui, SimpleClient.new]
  · simp [OnBeforeClose_on_ui, hremove]
  · intro ui c1 h1
    cases ui with
    | false => simp [OnAfterCreated_off_ui] at h1
    | true =>
      simp only [OnAfterCreated_on_ui, SimpleClient.new, List.nil_append,
        Outcome.returned.injEq] at h1
      subst h1
      refine ⟨rfl, rfl, ?_⟩
      intro ui2 c2 h2
      cases ui2 with
      | false => simp [OnBeforeClose_off_ui] at h2
      | true =>
        simp only [OnBeforeClose_on_ui, hremove, Outcome.returned.injEq] at h2
        subst h2
        rfl

/-- C2: for every view handle, url, width and height (any integers, zero and negative
included), `create_webview` on the UI thread returns having appended exactly one call to the
engine log: `CreateBrowser` with window info "child of `view` at x = 0, y = 0 with the given
width and height", a newly constructed `SimpleClient`, the url unchanged, the default
browser settings and two null pointers.  What the engine answers plays no part. -/
theorem C2_create_webview_request {A S B : Type} (sdk : SdkDefaults A S B)
    (engine : Engine A S B) (log : List (EngineCall A S B)) (view : CefWindowHandle)
    (url : String) (width height : Int) :
    (∃ log1, create_webview sdk engine true log view url width height =
        Outcome.returned log1 ∧
      log1 = log ++ [EngineCall.CreateBrowser
        { parent_view := view, bounds := { x := 0, y := 0, width := width, height := height } }
        (some { browser_list_ := [] }) url sdk.browser_settings none none] ∧
      log1.length = log.length + 1) := by
  refine ⟨_, create_webview_on_ui sdk engine log view url width height, rfl, ?_⟩
  simp

/-- C3: for every argument tuple, `create_webview` called off the engine's UI thread ends in
the abort outcome, and the engine log at the abort is the log it started with: no
browser-creation request was issued. -/
theorem C3_create_webview_off_ui_aborts {A S B : Type} (sdk : SdkDefaults A S B)
    (engine : Engine A S B) (log : List (EngineCall A S B)) (view : CefWindowHandle)
    (url : String) (width height : Int) :
    create_webview sdk engine false log view url width height = Outcome.aborted log := by
  simp [create_webview, CEF_REQUIRE_UI_THREAD]

/-- C4: whether the engine reports success (`engine_ok`) or failure (`engine_fail`) from its
initialise routine, `CefManager_Initialize` returns normally having appended exactly one
call, the `CefInitialize` call, to the log, and the two outcomes are equal. -/
theorem C4_initialize_failure_dropped {A S B : Type} (sdk : SdkDefaults A S B)
    (engine_ok engine_fail : Engine A S B) (log : List (EngineCall A S B))
    (h_ok : engine_ok.CefInitialize log sdk.main_args { sdk.settings with no_sandbox := 1 }
      (some SimpleApp.new) none = true)
    (h_fail : engine_fail.CefInitialize log sdk.main_args { sdk.settings with no_sandbox := 1 }
      (some SimpleApp.new) none = false) :
    CefManager_Initialize sdk engine_ok log = CefManager_Initialize sdk engine_fail log ∧
    ∃ args settings app sandbox,
      CefManager_Initialize sdk engine_fail log =
        Outcome.returned (log ++ [EngineCall.CefInitialize args settings app sandbox]) := by
  have _ := h_ok
  have _ := h_fail
  refine ⟨?_, _, _, _, _, CefManager_Initialize_eq sdk engine_fail log⟩
  rw [CefManager_Initialize_eq, CefManager_Initialize_eq]

/-- C5: `CefManager_Initialize` calls the engine's `CefInitialize` with the default startup
arguments, a newly constructed `SimpleApp`, a null sandbox-info pointer, and settings whose
`no_sandbox` is 1 and whose other fields are those of the default settings. -/
theorem C5_initialize_arguments {A S B : Type} (sdk : SdkDefaults A S B)
    (engine : Engine A S B) (log : List (EngineCall A S B)) :
    ∃ settings : CefSettings S,
      CefManager_Initialize sdk engine log =
        Outcome.returned (log ++ [EngineCall.CefInitialize sdk.main_args settings
          (some SimpleApp.new) none]) ∧
      settings.no_sandbox = 1 ∧ settings.other = sdk.settings.other := by
  exact ⟨_, CefManager_Initialize_eq sdk engine log, rfl, rfl⟩

/-- C6: for every tracked list `l` and handle `b`, `OnAfterCreated(b)` on the UI thread
returns with the list `l` followed by `b`: one entry longer, the earlier entries unchanged
and in the same order, whether or not `l` was empty or already held `b`. -/
theorem C6_after_created_appends (l : List CefBrowser) (b : CefBrowser) :
    ∃ l1, (SimpleClient.mk l).OnAfterCreated true b = Outcome.returned ⟨l1⟩ ∧
      l1 = l ++ [b] ∧ l1.length = l.length + 1 ∧ l1.take l.length = l ∧
      l1.drop l.length = [b] := by
  refine ⟨_, OnAfterCreated_on_ui _ b, rfl, ?_, ?_, ?_⟩ <;> simp

/-- C7: for every tracked list `l` and handle `b`, `OnBeforeClose(b)` on the UI thread
returns with a list in which `b` does not occur and which is exactly the entries of `l`
other than `b`, in their original order; it is `l` itself when `b` was not tracked. -/
theorem C7_before_close_removes (l : List CefBrowser) (b : CefBrowser) :
    ∃ l1, (SimpleClient.mk l).OnBeforeClose true b = Outcome.returned ⟨l1⟩ ∧
      b ∉ l1 ∧ l1 = l.filter (fun x => decide (x ≠ b)) ∧ (b ∉ l → l1 = l) := by
  refine ⟨_, OnBeforeClose_on_ui _ b, ?_, remove_eq_filter b l, ?_⟩
  · simp [remove_eq_filter]
  · intro hb
    simp only [remove_eq_filter]
    rw [List.filter_eq_self]
    intro a ha
    have : a ≠ b := fun h => hb (h ▸ ha)
    simpa using this

/-- C8 (evaluation of the code at the failing input): with the list `[1]` already tracked,
`OnAfterCreated(2)` on the UI thread leaves the list `[1, 2]`, not the list `[2]` that holds
the last browser created only. -/
theorem C8_after_created_keeps_earlier :
    (SimpleClient.mk [1]).OnAfterCreated true 2 = Outcome.returned ⟨[1, 2]⟩ ∧
    (SimpleClient.mk [1]).OnAfterCreated true 2 ≠ Outcome.returned ⟨[2]⟩ := by
  decide

/-- C9: after every history of Manager calls (the empty one, one without
`CefManager_Initialize`, one with `CefManager_Shutdown` already made, ...), started from any
log and with any engine, the history returns and `create_webview` on the UI thread then
returns, never aborts, and appends the one request fixed by its arguments alone. -/
theorem C9_no_sequencing_check {A S B : Type} (sdk : SdkDefaults A S B)
    (engine : Engine A S B) (log0 : List (EngineCall A S B)) (history : List ManagerCall)
    (view : CefWindowHandle) (url : String) (width height : Int) :
    ∃ log, run_manager sdk engine log0 history = Outcome.returned log ∧
      create_webview sdk engine true log view url width height =
        Outcome.returned (log ++ [EngineCall.CreateBrowser
          { parent_view := view, bounds := { x := 0, y := 0, width := width, height := height } }
          (some SimpleClient.new) url sdk.browser_settings none none]) := by
  obtain ⟨log, hlog⟩ := run_manager_returns sdk engine history log0
  exact ⟨log, hlog, create_webview_on_ui sdk engine log view url width height⟩

/-- C10: for every sequence of life-span callbacks delivered to a freshly constructed
`SimpleClient` in which no browser is reported created while it is still tracked, after
every step (every prefix of the sequence) the run on the UI thread has returned, the tracked
list has no duplicate, and it is exactly the browsers created and not closed since their
creation, in creation order; on any thread, a run that returned left that same list. -/
theorem C10_tracked_list_invariant (evs : List LifeSpanEvent)
    (h : no_create_while_tracked SimpleClient.new evs = true) (k : Nat) :
    run_callbacks true SimpleClient.new (evs.take k) =
      Outcome.returned ⟨created_not_closed (evs.take k)⟩ ∧
    (created_not_closed (evs.take k)).Nodup ∧
    ∀ (ui : Bool) (c : SimpleClient),
      run_callbacks ui SimpleClient.new (evs.take k) = Outcome.returned c →
      c.browser_list_ = created_not_closed (evs.take k) := by
  have hrun : run_callbacks true SimpleClient.new (evs.take k) =
      Outcome.returned ⟨created_not_closed (evs.take k)⟩ := by
    simpa [SimpleClient.new] using run_callbacks_on_ui (evs.take k) []
  refine ⟨hrun, ?_, ?_⟩
  · obtain ⟨l1, hl1, hnd⟩ := run_callbacks_nodup (evs.take k) [] List.nodup_nil
      (no_create_while_tracked_take evs SimpleClient.new k h)
    have heq : run_callbacks true ⟨[]⟩ (evs.take k) =
        Outcome.returned ⟨created_not_closed (evs.take k)⟩ := hrun
    rw [hl1] at heq
    simp only [Outcome.returned.injEq, SimpleClient.mk.injEq] at heq
    exact heq ▸ hnd
  · intro ui c hc
    have := run_callbacks_returned_on_ui ui _ c _ hc
    rw [hrun] at this
    simp only [Outcome.returned.injEq] at this
    rw [← this]

/-! ## Witnesses -/

/-- Witness for C4: an engine that always reports success and one that always reports
failure, with unit-valued SDK defaults and an empty log. -/
theorem C4_initialize_failure_dropped_witness :
    CefManager_Initialize (A := Unit) (S := Unit) (B := Unit) ⟨(), ⟨0, ()⟩, ()⟩
        ⟨fun _ _ _ _ _ => true, fun _ _ _ _ _ _ _ => true⟩ [] =
      CefManager_Initialize ⟨(), ⟨0, ()⟩, ()⟩
        ⟨fun _ _ _ _ _ => false, fun _ _ _ _ _ _ _ => false⟩ [] ∧
    ∃ args settings app sandbox,
      CefManager_Initialize (A := Unit) (S := Unit) (B := Unit) ⟨(), ⟨0, ()⟩, ()⟩
        ⟨fun _ _ _ _ _ => false, fun _ _ _ _ _ _ _ => false⟩ [] =
        Outcome.returned ([] ++ [EngineCall.CefInitialize args settings app sandbox]) :=
  C4_initialize_failure_dropped ⟨(), ⟨0, ()⟩, ()⟩
    ⟨fun _ _ _ _ _ => true, fun _ _ _ _ _ _ _ => true⟩
    ⟨fun _ _ _ _ _ => false, fun _ _ _ _ _ _ _ => false⟩ [] rfl rfl

/-- Witness for C10: browser 1 created, browser 2 created, browser 1 closed, browser 1
created again; after three steps only browser 2 is tracked. -/
theorem C10_tracked_list_invariant_witness :
    no_create_while_tracked SimpleClient.new
        [LifeSpanEvent.AfterCreated 1, LifeSpanEvent.AfterCreated 2,
          LifeSpanEvent.BeforeClose 1, LifeSpanEvent.AfterCreated 1] = true ∧
    run_callbacks true SimpleClient.new
        [LifeSpanEvent.AfterCreated 1, LifeSpanEvent.AfterCreated 2,
          LifeSpanEvent.BeforeClose 1] = Outcome.returned ⟨[2]⟩ := by
  have hw : no_create_while_tracked SimpleClient.new
      [LifeSpanEvent.AfterCreated 1, LifeSpanEvent.AfterCreated 2,
        LifeSpanEvent.BeforeClose 1, LifeSpanEvent.AfterCreated 1] = true := by decide
  exact ⟨hw, (C10_tracked_list_invariant _ hw 3).1⟩

end Runner
